import Mathlib

/-!
# Verification of `pysrpm/convert.py`

Shallow embedding of the marker-simplification / specifier-translation module
of pysrpm (`src/pysrpm/convert.py`), together with theorems settling the
specification claims about it.

Conventions of the embedding:
* Python strings become `String`, dicts become association lists or structures,
  `ValueError` raises become an `Except RpmError` return path.  The two
  distinct `ValueError` message families of the source ("Unsupported operator
  …" and "Unsupported marker …") are modelled as the two constructors of
  `RpmError`.
* The `packaging.markers` leaf tuples `(Variable, Op, Value)` become
  `MarkerNode.leaf`, the `and` / `or` connective tokens become
  `MarkerNode.conn` (the parser of the library emits exactly these two tokens),
  nested lists become `MarkerNode.group`, and Python booleans become
  `MarkerNode.const`.
* The function results `str`-or-`bool` become the sum type `RpmResult`.
-/

/-- `str.rstrip(".*")` of Python: remove *all* trailing characters that are
a dot or a star (note: this is a character-set strip, not a suffix strip). -/
def rstripDotStar (s : String) : String :=
  String.mk ((s.data.reverse.dropWhile (fun c => c = '.' ∨ c = '*')).reverse)

/-- Python `str.split()` with no argument: split on runs of whitespace,
dropping empty fields. -/
def pysplit (s : String) : List String :=
  ((s.data.splitOnP Char.isWhitespace).map String.mk).filter (fun t => t ≠ "")

/-- The `_rpm_operator_correspondance` dict of the source, as a lookup
function: PEP 440/508 comparison operators that map directly to an RPM
comparison operator. -/
def _rpm_operator_correspondance (op : String) : Option String :=
  if op = "==" then some "="
  else if op = "===" then some "="
  else if op = "<" then some "<"
  else if op = "<=" then some "<="
  else if op = ">=" then some ">="
  else if op = ">" then some ">"
  else none

/-- One PEP 440 specifier: an operator paired with a version string
(an element of `packaging.specifiers.SpecifierSet`). -/
structure Specifier where
  operator : String
  version : String
deriving DecidableEq, Repr

/-- The clauses contributed by one specifier inside the loop of
`specifier_to_rpm_version` (lines 119–128 of the source): direct-mapped
operators yield one comparison clause, `~=` yields a two-sided range with the
`^zzz` sentinel, `!=` yields an exclusion disjunction, and any other operator
contributes nothing. -/
def specClauses (package : String) (spec : Specifier) : List String :=
  let version := rstripDotStar spec.version
  match _rpm_operator_correspondance spec.operator with
  | some rpm_op => [s!"{package} {rpm_op} {version}"]
  | none =>
    if spec.operator = "~=" then
      [s!"{package} >= {version}", s!"{package} < {version}^zzz"]
    else if spec.operator = "!=" then
      [s!"({package} < {version} or {package} > {version})"]
    else []

/-- `specifier_to_rpm_version` of the source: translate a package name and its
specifier set (modelled as the list of specifiers in iteration order) into a
single RPM version-requirement string; an empty clause list yields the bare
package name. -/
def specifier_to_rpm_version (package : String) (version : List Specifier) : String :=
  let rpm_specs := version.flatMap (specClauses package)
  if rpm_specs ≠ [] then
    String.intercalate ", " rpm_specs
  else
    package

/-- The two failure modes of the translators.  The source raises `ValueError`
with two distinct message families; the design documents them as the two error
kinds `UnsupportedOperator` (message `Unsupported operator … for …`, raised at
lines 34 and 53 of the source) and `UnsupportedMarkerVariable` (message
`Unsupported marker …`, raised at line 41). -/
inductive RpmError where
  | unsupportedOperator (op : String) (context : String)
  | unsupportedMarkerVariable (var : String)
deriving DecidableEq, Repr

/-- The result type of the marker evaluator: the source returns either a
Python `bool` or a `str`. -/
inductive RpmResult where
  | bool (b : Bool)
  | str (s : String)
deriving DecidableEq, Repr

/-- The `and` / `or` connective tokens interleaved with sub-expressions in
`packaging.markers.Marker._markers` (the parser of the library emits exactly
these two strings as bare tokens). -/
inductive Connective where
  | conj
  | disj
deriving DecidableEq, Repr

/-- The string token a connective stands for in the flattened marker list. -/
def Connective.token : Connective → String
  | .conj => "and"
  | .disj => "or"

/-- A node of the flattened marker representation that
`simplify_marker_to_rpm_condition` dispatches on: a comparison tuple
`(Variable, Op, Value)`, a bare connective token, a Python boolean, or a
nested list. -/
inductive MarkerNode where
  | leaf (var op val : String)
  | conn (c : Connective)
  | const (b : Bool)
  | group (children : List MarkerNode)

/-- An environment-map value: a single string, or a list of candidate strings
(one build per candidate). -/
inductive EnvVal where
  | single (s : String)
  | list (ss : List String)
deriving DecidableEq, Repr

/-- The template map: the two entries `python_abi` and `python_arch` the
source reads from `templates`. -/
structure Templates where
  python_abi : String
  python_arch : String
deriving DecidableEq, Repr

/-- Python `arch_template.format(arch=version)`: substitute every occurrence
of the placeholder `\x7barch\x7d` in the template. -/
def archFormat (tmpl arch : String) : String :=
  String.mk (go tmpl.data)
where
  go : List Char → List Char
    | [] => []
    | c :: rest =>
      if List.isPrefixOf ['\x7b', 'a', 'r', 'c', 'h', '\x7d'] (c :: rest) then
        arch.data ++ go (rest.drop 5)
      else
        c :: go rest
  termination_by l => l.length
  decreasing_by
    · simp only [List.length_cons, List.length_drop]; omega
    · simp only [List.length_cons]; omega

/-- The Python substring test `needle in haystack` on strings, over character
lists. -/
def listContains : List Char → List Char → Bool
  | needle, [] => needle.isEmpty
  | needle, c :: rest => List.isPrefixOf needle (c :: rest) || listContains needle rest

/-- Python `str.split(".")` over a character list: cut at every dot. -/
def splitDots : List Char → List (List Char)
  | [] => [[]]
  | c :: rest =>
    if c = '.' then
      [] :: splitDots rest
    else
      match splitDots rest with
      | [] => [[c]]
      | p :: ps => (c :: p) :: ps

/-- The numeric value of a digit string (`int(p)` on an all-digit field). -/
def digitsToNat (p : List Char) : Nat :=
  p.foldl (fun n c => n * 10 + (c.toNat - 48)) 0

/-- A dotted release version, parsed when every dot-separated field is a
nonempty digit string. -/
def parseRelease (s : String) : Option (List Nat) :=
  let parts := splitDots s.data
  if parts.all (fun p => !p.isEmpty && p.all Char.isDigit) then
    some (parts.map digitsToNat)
  else
    none

/-- PEP 440 release comparison: compare componentwise, padding the shorter
release with zeros (so `3.8` equals `3.8.0`). -/
def cmpRelease : List Nat → List Nat → Ordering
  | [], ys => if ys.all (fun y => y = 0) then .eq else .lt
  | x :: xs, [] => if x = 0 then cmpRelease xs [] else .gt
  | x :: xs, y :: ys =>
    if x < y then .lt else if y < x then .gt else cmpRelease xs ys

/-- Models the evaluation of one comparison `lhs op "rhs"` by the external
`packaging.markers` library (`Marker.evaluate` on a single-clause marker,
called at lines 88–92 of the source; the library itself is not part of this
repository): when both operands parse as dotted release versions the library
compares them as PEP 440 versions, otherwise it falls back to plain string
comparison; `in` / `not in` are Python substring tests. -/
def evalComparison (lhs op rhs : String) : Bool :=
  if op = "in" then listContains lhs.data rhs.data
  else if op = "not in" then ! listContains lhs.data rhs.data
  else
    match parseRelease lhs, parseRelease rhs with
    | some va, some vb =>
      let c := cmpRelease va vb
      if op = "==" then c = .eq
      else if op = "!=" then c ≠ .eq
      else if op = "<" then c = .lt
      else if op = "<=" then c ≠ .gt
      else if op = ">" then c = .gt
      else if op = ">=" then c ≠ .lt
      else if op = "~=" then
        c ≠ .lt && cmpRelease (va.take (vb.length - 1)) (vb.dropLast) = .eq
      else if op = "===" then lhs = rhs
      else false
    | _, _ =>
      if op = "==" then lhs = rhs
      else if op = "===" then lhs = rhs
      else if op = "!=" then lhs ≠ rhs
      else if op = "<" then lhs < rhs
      else if op = "<=" then lhs ≤ rhs
      else if op = ">" then rhs < lhs
      else if op = ">=" then rhs ≤ lhs
      else false

/-- `_single_marker_to_rpm_condition` of the source: express one marker leaf
as an RPM condition string, or fail on an unsupported variable or operator. -/
def _single_marker_to_rpm_condition (var op val : String) (templates : Templates) :
    Except RpmError String :=
  if var = "platform_machine" then  -- arch / uname -m
    if op = "==" then .ok ("if " ++ archFormat templates.python_arch val)
    else if op = "!=" then .ok ("without " ++ archFormat templates.python_arch val)
    else if op = "in" then
      .ok ("if (" ++ String.intercalate " or "
            ((pysplit val).map (archFormat templates.python_arch)) ++ ")")
    else .error (.unsupportedOperator op "platform_machine")
  else
    match (if var = "python_full_version" ∨ var = "python_version" ∨
              var = "implementation_version" then some templates.python_abi
           else if var = "platform_release" then some "kernel"
           else none) with
    | none => .error (.unsupportedMarkerVariable var)
    | some package =>
      match _rpm_operator_correspondance op with
      | some rpm_op => .ok s!"{package} {rpm_op} {val}"
      | none =>
        if op = "~=" then
          .ok s!"({package} >= {val} and {package} < {val}^next)"
        else if op = "!=" then
          .ok s!"({package} < {val} or {package} > {val})"
        else if op = "in" then
          .ok ("(" ++ String.intercalate " or "
                ((pysplit val).map (fun v => s!"{package} = {v}")) ++ ")")
        else .error (.unsupportedOperator op s!"dependency marker {var} {op} {val}")

/-- Is this node the bare token `or`?  (line 99 of the source: the split
positions are those where the original list element equals `or`). -/
def MarkerNode.isOr : MarkerNode → Bool
  | .conn .disj => true
  | _ => false

/-- Lines 99–101 of the source: slice the evaluated children at the positions
where the *original* element is the `or` token, dropping the `or` elements
themselves.  Works on the children zipped with their evaluations so the split
positions come from the original nodes, exactly as Python enumerates `marker`
but slices `simple_markers`. -/
def splitAtOr : List (MarkerNode × RpmResult) → List (List RpmResult)
  | [] => [[]]
  | (m, r) :: rest =>
    if m.isOr then
      [] :: splitAtOr rest
    else
      match splitAtOr rest with
      | [] => [[r]]
      | c :: cs => (r :: c) :: cs

/-- The per-clause filter inside the comprehension at line 100: drop the
`and` tokens and the `True` constants (vacuous in an AND). -/
def filterClause (cl : List RpmResult) : List RpmResult :=
  cl.filter (fun mk =>
    decide (mk ≠ RpmResult.str "and") && decide (mk ≠ RpmResult.bool true))

/-- A clause after the reduction at line 102: an all-`True` clause collapses to
`True`, a single surviving element is promoted out of its list, a multi-element
clause stays a list. -/
inductive DnfClause where
  | tru
  | single (r : RpmResult)
  | multi (rs : List RpmResult)
deriving DecidableEq, Repr

/-- Line 102 of the source: discard every clause containing a `False`
element, then promote the survivors. -/
def reduceClauses (dnf : List (List RpmResult)) : List DnfClause :=
  (dnf.filter (fun cl => !cl.any (fun ev => decide (ev = RpmResult.bool false)))).map
    (fun cl =>
      match cl with
      | [] => .tru
      | [r] => .single r
      | rs => .multi rs)

/-- Python `" and ".join(s)` applied to a *string* `s` iterates its
characters, joining the single-character strings with `" and "`. -/
def joinAndChars (s : String) : String :=
  String.intercalate " and " (s.data.map (fun c => String.mk [c]))

/-- The string a clause element contributes to a join.  Elements reaching a
join are always strings (`True` is dropped at line 100, a `False` discards its
clause at line 102); on a boolean the `str.join` of the source would raise
`TypeError`, an unreachable case rendered here as the repr of the boolean. -/
def RpmResult.forceStr : RpmResult → String
  | .str s => s
  | .bool b => if b then "True" else "False"

/-- Lines 103–105 of the source: combine the reduced clauses with OR.  No
surviving clause means `False`; a surviving `True` clause absorbs to `True`;
the single-clause branch applies `" and ".join` directly to `dnf[0]`, which
character-joins when that clause is a single promoted string; several clauses
are OR-joined in parentheses. -/
def combineDnf (dnf : List DnfClause) : RpmResult :=
  if dnf = [] then .bool false
  else if dnf.any (fun cl => decide (cl = DnfClause.tru)) then .bool true
  else
    match dnf with
    | [.single r] => .str (joinAndChars r.forceStr)
    | [.multi rs] => .str (String.intercalate " and " (rs.map RpmResult.forceStr))
    | [.tru] => .bool true  -- unreachable: caught by the `any` branch above
    | _ => .str ("(" ++ String.intercalate " or " (dnf.map (fun mk =>
        match mk with
        | .multi rs => String.intercalate " and " (rs.map RpmResult.forceStr)
        | .single r => r.forceStr
        | .tru => "True")) ++ ")")

/-- Dictionary lookup in the environment map (`env not in environments` /
`environments[env]` at lines 86–92). -/
def lookupEnv (environments : List (String × EnvVal)) (var : String) : Option EnvVal :=
  match environments with
  | [] => none
  | (k, v) :: rest => if k = var then some v else lookupEnv rest var

mutual

/-- The recursive body of `simplify_marker_to_rpm_condition` (lines 78–105 of
the source), dispatching on the node kind.  A `ValueError` raised by the leaf
translator, inside a recursive call or not, propagates uncaught.  Modelling
scope: the `Marker(f arguments)` re-parse at line 88 is modelled as never
failing, which is faithful for variables of the PEP 508 marker grammar; for a
variable outside that grammar (such as the literal `extras`) the library
would raise `InvalidMarker` at line 88, so the mixed-satisfaction special
case `env == "extras"` at line 93 is unreachable in the program. -/
def simplifyMarker (marker : MarkerNode) (environments : List (String × EnvVal))
    (templates : Templates) : Except RpmError RpmResult :=
  match marker with
  | .conn c => .ok (.str c.token)
  | .const b => .ok (.bool b)
  | .leaf var op val =>
    match lookupEnv environments var with
    | none => (_single_marker_to_rpm_condition var op val templates).map RpmResult.str
    | some envval =>
      let evaluations :=
        match envval with
        | .list vals => vals.map (fun v => evalComparison v op val)
        | .single v => [evalComparison v op val]
      if evaluations.all (fun ev => ev) then .ok (.bool true)
      else if evaluations.all (fun ev => !ev) then .ok (.bool false)
      else if var = "extras" then .ok (.bool true)
      else (_single_marker_to_rpm_condition var op val templates).map RpmResult.str
  | .group children => do
    let simple_markers ← simplifyMarkerList children environments templates
    .ok (combineDnf (reduceClauses
          ((splitAtOr (children.zip simple_markers)).map filterClause)))
termination_by structural marker

/-- The list comprehension at line 97: evaluate the children of a group left
to right, propagating the first raised error. -/
def simplifyMarkerList (l : List MarkerNode) (environments : List (String × EnvVal))
    (templates : Templates) : Except RpmError (List RpmResult) :=
  match l with
  | [] => .ok []
  | m :: rest => do
    let r ← simplifyMarker m environments templates
    let rs ← simplifyMarkerList rest environments templates
    .ok (r :: rs)
termination_by structural l

end

/-- `simplify_marker_to_rpm_condition` of the source: a `None` marker means
"no constraint" and evaluates to `True`; otherwise the (unwrapped) marker tree
is evaluated recursively. -/
def simplify_marker_to_rpm_condition (marker : Option MarkerNode)
    (environments : List (String × EnvVal)) (templates : Templates) :
    Except RpmError RpmResult :=
  match marker with
  | none => .ok (.bool true)
  | some m => simplifyMarker m environments templates

/-- Characterization of the comparisons on which the leaf translator fails:
any variable outside the supported set; an operator other than `==`, `!=`,
`in` on `platform_machine`; an operator other than `==`, `===`, `<`, `<=`,
`>=`, `>`, `~=`, `!=`, `in` on an interpreter-version variable or
`platform_release`. -/
def leafUnsupported (var op : String) : Bool :=
  if var = "platform_machine" then
    decide (¬(op = "==" ∨ op = "!=" ∨ op = "in"))
  else if var = "python_full_version" ∨ var = "python_version" ∨
          var = "implementation_version" ∨ var = "platform_release" then
    decide (¬(op = "==" ∨ op = "===" ∨ op = "<" ∨ op = "<=" ∨ op = ">=" ∨ op = ">" ∨
              op = "~=" ∨ op = "!=" ∨ op = "in"))
  else true

/-- C1: evaluation of the group reducer at inputs whose DNF reduction leaves
exactly one surviving clause.  With several elements the clause is rendered
joined with `" and "` as the claim states, but with a single element the
source applies the string join directly to the promoted element string
(`" and ".join(dnf[0])` where `dnf[0]` is a `str`), which joins its
*characters* with `" and "` instead of returning the element unchanged. -/
theorem C1_single_clause_character_join :
    simplify_marker_to_rpm_condition
        (some (.group [.leaf "python_version" ">=" "3.8", .conn .conj,
                       .leaf "platform_release" "<" "5.0"])) [] ⟨"pyabi", "arch"⟩ =
      .ok (.str "pyabi >= 3.8 and kernel < 5.0")
    ∧ simplify_marker_to_rpm_condition
        (some (.group [.leaf "python_version" ">=" "3.8"])) [] ⟨"pyabi", "arch"⟩ =
      .ok (.str "p and y and a and b and i and   and > and = and   and 3 and . and 8")
    ∧ simplify_marker_to_rpm_condition
        (some (.group [.leaf "python_version" ">=" "3.8"])) [] ⟨"pyabi", "arch"⟩ ≠
      .ok (.str "pyabi >= 3.8") := by
  refine ⟨rfl, rfl, fun h => ?_⟩
  rw [show simplify_marker_to_rpm_condition
        (some (.group [.leaf "python_version" ">=" "3.8"])) [] ⟨"pyabi", "arch"⟩ =
      .ok (.str "p and y and a and b and i and   and > and = and   and 3 and . and 8")
      from rfl] at h
  simp at h

/-- C2 counterexample: the claim evaluates marker variable `extra` against
environment key `extras`; the source looks the *marker variable* up in the
environment map, misses, and delegates to the leaf translator, which raises
`Unsupported marker extra` — it does not return the boolean true. -/
theorem C2_counterexample :
    simplify_marker_to_rpm_condition (some (.leaf "extra" "==" "a"))
        [("extras", .list ["a", "b"])] ⟨"pyabi", "arch"⟩ =
      .error (.unsupportedMarkerVariable "extra")
    ∧ simplify_marker_to_rpm_condition (some (.leaf "extra" "==" "a"))
        [("extras", .list ["a", "b"])] ⟨"pyabi", "arch"⟩ ≠
      .ok (.bool true) := by
  refine ⟨rfl, fun h => ?_⟩
  rw [show simplify_marker_to_rpm_condition (some (.leaf "extra" "==" "a"))
        [("extras", .list ["a", "b"])] ⟨"pyabi", "arch"⟩ =
      .error (.unsupportedMarkerVariable "extra") from rfl] at h
  exact Except.noConfusion h

/-- C2 (amended): with environment map `{"extras": ["a","b"]}`, evaluating
`Leaf("extra","==","a")` does not yield the boolean constant true: the marker
variable `extra` misses the environment key `extras` at line 86, the
comparison is delegated to the leaf translator, and
`UnsupportedMarkerVariable` is raised, for any template map.  (The
mixed-satisfaction special case at line 93 guards on the marker variable
being literally `extras`, a spelling the marker re-parse at line 88 rejects,
so no input reaches it.) -/
theorem C2_extra_mismatch_raises :
    ∀ (abi arch : String),
      simplify_marker_to_rpm_condition (some (.leaf "extra" "==" "a"))
        [("extras", .list ["a", "b"])] ⟨abi, arch⟩ =
        .error (.unsupportedMarkerVariable "extra") :=
  fun _ _ => rfl

/-- C3 counterexample: with an empty candidate list the comparison holds for
no candidate (vacuously), yet the evaluator returns true — Python `all` on
the empty evaluation list wins — so the known-false case of the claim fails
as universally stated. -/
theorem C3_counterexample :
    (([] : List String).map (fun v => evalComparison v "==" "3.9")).all (fun ev => !ev) = true
    ∧ simplify_marker_to_rpm_condition (some (.leaf "python_version" "==" "3.9"))
        [("python_version", .list [])] ⟨"pyabi", "arch"⟩ = .ok (.bool true) :=
  ⟨rfl, rfl⟩

/-- C3 (amended): for a variable mapped to a list of candidates, the
evaluator returns true when the comparison holds for every candidate, false
when the list is nonempty and it holds for no candidate, and otherwise — some
but not all candidates, variable not `extras` — the leaf translator output
lifted to a string result (never a boolean). -/
theorem C3_candidate_folding (var op val : String) (candidates : List String)
    (environments : List (String × EnvVal)) (abi arch : String)
    (henv : lookupEnv environments var = some (.list candidates)) :
    ((candidates.map (fun v => evalComparison v op val)).all (fun ev => ev) = true →
      simplify_marker_to_rpm_condition (some (.leaf var op val)) environments ⟨abi, arch⟩ =
        .ok (.bool true))
    ∧ (candidates ≠ [] →
        (candidates.map (fun v => evalComparison v op val)).all (fun ev => !ev) = true →
        simplify_marker_to_rpm_condition (some (.leaf var op val)) environments ⟨abi, arch⟩ =
          .ok (.bool false))
    ∧ ((candidates.map (fun v => evalComparison v op val)).all (fun ev => ev) = false →
        (candidates.map (fun v => evalComparison v op val)).all (fun ev => !ev) = false →
        var ≠ "extras" →
        simplify_marker_to_rpm_condition (some (.leaf var op val)) environments ⟨abi, arch⟩ =
          (_single_marker_to_rpm_condition var op val ⟨abi, arch⟩).map RpmResult.str) := by
  refine ⟨fun h1 => ?_, fun hne h2 => ?_, fun h1 h2 h3 => ?_⟩
  · simp only [simplify_marker_to_rpm_condition, simplifyMarker, henv]
    rw [if_pos h1]
  · have h1 : (candidates.map (fun v => evalComparison v op val)).all (fun ev => ev) = false := by
      cases candidates with
      | nil => exact absurd rfl hne
      | cons c cs =>
        rw [List.map_cons, List.all_cons] at h2 ⊢
        have hc : evalComparison c op val = false := by
          have := ((Bool.and_eq_true _ _).mp h2).1
          simpa using this
        simp [hc]
    simp only [simplify_marker_to_rpm_condition, simplifyMarker, henv]
    rw [if_neg (by simp [h1]), if_pos h2]
  · simp only [simplify_marker_to_rpm_condition, simplifyMarker, henv]
    rw [if_neg (by simp [h1]), if_neg (by simp [h2]), if_neg h3]

/-- C3 witness: mixed satisfaction on `python_version` over two candidate
versions yields the symbolic leaf-translator string. -/
theorem C3_candidate_folding_witness :
    simplify_marker_to_rpm_condition (some (.leaf "python_version" "==" "3.9"))
        [("python_version", .list ["3.8", "3.9"])] ⟨"python3dist", "arch"⟩ =
      .ok (.str "python3dist = 3.9") :=
  ((C3_candidate_folding "python_version" "==" "3.9" ["3.8", "3.9"]
      [("python_version", .list ["3.8", "3.9"])] "python3dist" "arch" rfl).2.2
    (by decide) (by decide) (by decide)).trans rfl

/-- C4: the group reducer drops `True` constants and `"and"` tokens inside
each clause, discards any clause containing a `False` element, turns an
emptied clause into `True`, yields `False` when no clause survives and `True`
when any surviving clause is `True`; in particular `(A and B) or C` with `A`
true, `B` false and `C` true evaluates to `True`. -/
theorem C4_dnf_reduction :
    (∀ cl : List RpmResult, RpmResult.str "and" ∉ filterClause cl
        ∧ RpmResult.bool true ∉ filterClause cl)
    ∧ (∀ cl : List RpmResult, RpmResult.bool false ∈ cl → reduceClauses [cl] = [])
    ∧ reduceClauses [[]] = [DnfClause.tru]
    ∧ combineDnf [] = RpmResult.bool false
    ∧ (∀ dnf : List DnfClause, DnfClause.tru ∈ dnf → combineDnf dnf = RpmResult.bool true)
    ∧ simplify_marker_to_rpm_condition
        (some (.group [.leaf "python_version" "==" "3.9", .conn .conj,
                       .leaf "python_version" "==" "3.8", .conn .disj,
                       .leaf "python_version" ">=" "3.0"]))
        [("python_version", .single "3.9")] ⟨"pyabi", "arch"⟩ = .ok (.bool true) := by
  refine ⟨fun cl => ⟨fun hmem => ?_, fun hmem => ?_⟩, fun cl h => ?_, rfl, rfl,
    fun dnf h => ?_, rfl⟩
  · simp [filterClause, List.mem_filter] at hmem
  · simp [filterClause, List.mem_filter] at hmem
  · have hany : (cl.any fun ev => decide (ev = RpmResult.bool false)) = true :=
      List.any_eq_true.mpr ⟨RpmResult.bool false, h, by simp⟩
    simp [reduceClauses, hany]
  · have hne : dnf ≠ [] := List.ne_nil_of_mem h
    have hany : (dnf.any fun cl => decide (cl = DnfClause.tru)) = true :=
      List.any_eq_true.mpr ⟨DnfClause.tru, h, by simp⟩
    simp [combineDnf, hne, hany]

/-- C4 witness: the clause-discard and true-absorption equations at concrete
clause lists. -/
theorem C4_dnf_reduction_witness :
    reduceClauses [[RpmResult.bool false, RpmResult.str "x"]] = []
    ∧ combineDnf [DnfClause.single (RpmResult.str "x"), DnfClause.tru] = RpmResult.bool true
    ∧ RpmResult.str "and" ∉ filterClause [RpmResult.str "and", RpmResult.str "x"] :=
  ⟨C4_dnf_reduction.2.1 [RpmResult.bool false, RpmResult.str "x"] (by simp),
   C4_dnf_reduction.2.2.2.2.1 [DnfClause.single (RpmResult.str "x"), DnfClause.tru] (by simp),
   (C4_dnf_reduction.1 [RpmResult.str "and", RpmResult.str "x"]).1⟩

set_option maxHeartbeats 2000000 in
/-- C5: the leaf translator fails exactly on the unsupported comparisons:
`sys_platform` has no RPM equivalent (`UnsupportedMarkerVariable`), `<` is
not recognized on the architecture variable (`UnsupportedOperator`), and both
errors propagate uncaught through `simplify_marker_to_rpm_condition` with no
output string produced. -/
theorem C5_unsupported_errors :
    (∀ (var op val abi arch : String),
        (∃ e, _single_marker_to_rpm_condition var op val ⟨abi, arch⟩ = .error e) ↔
          leafUnsupported var op = true)
    ∧ (∀ (abi arch : String),
        _single_marker_to_rpm_condition "sys_platform" "==" "win32" ⟨abi, arch⟩ =
          .error (.unsupportedMarkerVariable "sys_platform"))
    ∧ (∀ (abi arch : String),
        _single_marker_to_rpm_condition "platform_machine" "<" "x86_64" ⟨abi, arch⟩ =
          .error (.unsupportedOperator "<" "platform_machine"))
    ∧ (∀ (abi arch : String),
        simplify_marker_to_rpm_condition (some (.leaf "sys_platform" "==" "win32"))
          [] ⟨abi, arch⟩ = .error (.unsupportedMarkerVariable "sys_platform"))
    ∧ (∀ (abi arch : String),
        simplify_marker_to_rpm_condition (some (.leaf "platform_machine" "<" "x86_64"))
          [] ⟨abi, arch⟩ = .error (.unsupportedOperator "<" "platform_machine")) := by
  refine ⟨fun var op val abi arch => ?_, fun _ _ => rfl, fun _ _ => rfl,
    fun _ _ => rfl, fun _ _ => rfl⟩
  unfold _single_marker_to_rpm_condition leafUnsupported _rpm_operator_correspondance
  split_ifs <;> simp_all

/-- C6: the two translators emit different sentinel suffixes for the
compatible-release operator `~=`: the leaf translator produces the single
parenthesised range with the `^next` suffix (on an interpreter-version
variable the package token is the ABI template, on `platform_release` it is
`kernel`), while `specifier_to_rpm_version` produces two clauses whose upper
bound carries the `^zzz` suffix, so that
`specifier_to_rpm_version "foo" [~=1.4] = "foo >= 1.4, foo < 1.4^zzz"`. -/
theorem C6_compatible_release_sentinels :
    (∀ (abi arch val : String),
        _single_marker_to_rpm_condition "python_version" "~=" val ⟨abi, arch⟩ =
          .ok s!"({abi} >= {val} and {abi} < {val}^next)")
    ∧ (∀ (abi arch val : String),
        _single_marker_to_rpm_condition "platform_release" "~=" val ⟨abi, arch⟩ =
          .ok (let k := "kernel"; s!"({k} >= {val} and {k} < {val}^next)"))
    ∧ (∀ (package v : String),
        specClauses package ⟨"~=", v⟩ =
          [s!"{package} >= {rstripDotStar v}", s!"{package} < {rstripDotStar v}^zzz"])
    ∧ specifier_to_rpm_version "foo" [⟨"~=", "1.4"⟩] = "foo >= 1.4, foo < 1.4^zzz" :=
  ⟨fun abi arch val => rfl, fun abi arch val => rfl, fun package v => rfl, by decide⟩

/-- C7: `specifier_to_rpm_version` joins the clauses produced from the
specifier list with `", "` in input iteration order, and returns the bare
package name when no clause is produced (in particular for the empty
specifier set). -/
theorem C7_clause_join :
    specifier_to_rpm_version "foo" [⟨">=", "1.0"⟩, ⟨"<", "2.0"⟩] = "foo >= 1.0, foo < 2.0"
    ∧ (∀ (package : String), specifier_to_rpm_version package [] = package)
    ∧ (∀ (package : String) (specs : List Specifier),
        specs.flatMap (specClauses package) ≠ [] →
        specifier_to_rpm_version package specs =
          String.intercalate ", " (specs.flatMap (specClauses package)))
    ∧ (∀ (package : String) (s : Specifier) (rest : List Specifier),
        (s :: rest).flatMap (specClauses package) =
          specClauses package s ++ rest.flatMap (specClauses package)) := by
  refine ⟨by decide, fun package => rfl, fun package specs h => ?_,
    fun package s rest => List.flatMap_cons ..⟩
  simp only [specifier_to_rpm_version]
  rw [if_pos h]

/-- C7 witness: the join equation applied to a concrete one-element specifier
list. -/
theorem C7_clause_join_witness :
    specifier_to_rpm_version "foo" [⟨">=", "1.0"⟩] =
      String.intercalate ", " ([Specifier.mk ">=" "1.0"].flatMap (specClauses "foo")) :=
  C7_clause_join.2.2.1 "foo" [⟨">=", "1.0"⟩] (by decide)

/-- C8 counterexample: the claim says only a trailing `.*` suffix is removed
from the version text, but the source uses Python `str.rstrip(".*")`, which
strips *all* trailing `.` and `*` characters.  The arbitrary-equality
specifier `===1.*.*` is accepted by `packaging` and ends in `.*`; stripping
only that suffix would give `foo = 1.*`, yet the code emits `foo = 1`. -/
theorem C8_counterexample :
    specifier_to_rpm_version "foo" [⟨"===", "1.*.*"⟩] = "foo = 1"
    ∧ specifier_to_rpm_version "foo" [⟨"===", "1.*.*"⟩] ≠ "foo = 1.*" := by
  constructor <;> decide

/-- C8 (amended): every emitted clause uses the version text with all
trailing `.` and `*` characters stripped — the stripped part is a suffix made
of dots and stars only, and the kept part does not end in a dot or star. -/
theorem C8_wildcard_rstrip :
    (∀ (package op v rpm_op : String), _rpm_operator_correspondance op = some rpm_op →
        specClauses package ⟨op, v⟩ = [s!"{package} {rpm_op} {rstripDotStar v}"])
    ∧ (∀ (package v : String),
        specClauses package ⟨"!=", v⟩ =
          [s!"({package} < {rstripDotStar v} or {package} > {rstripDotStar v})"])
    ∧ (∀ v : String, ∃ suffix : List Char,
        v.data = (rstripDotStar v).data ++ suffix
        ∧ (∀ c ∈ suffix, c = '.' ∨ c = '*')
        ∧ (∀ c, (rstripDotStar v).data.reverse.head? = some c → ¬(c = '.' ∨ c = '*')))
    ∧ rstripDotStar "1.0.*" = "1.0" ∧ rstripDotStar "1.*.*" = "1" := by
  refine ⟨fun package op v rpm_op h => ?_, fun package v => rfl, fun v => ?_, by decide, by decide⟩
  · simp only [specClauses, h]
  · refine ⟨(v.data.reverse.takeWhile (fun c => decide (c = '.' ∨ c = '*'))).reverse, ?_, ?_, ?_⟩
    · conv_lhs => rw [← v.data.reverse_reverse,
        ← List.takeWhile_append_dropWhile
          (p := fun c => decide (c = '.' ∨ c = '*')) (l := v.data.reverse)]
      rw [List.reverse_append]
      rfl
    · intro c hc
      have := List.mem_takeWhile_imp (List.mem_reverse.mp hc)
      simpa using this
    · intro c hc
      rw [show (rstripDotStar v).data.reverse =
            v.data.reverse.dropWhile (fun c => decide (c = '.' ∨ c = '*')) from
          List.reverse_reverse _] at hc
      cases hd : v.data.reverse.dropWhile (fun c => decide (c = '.' ∨ c = '*')) with
      | nil => rw [hd] at hc; simp at hc
      | cons a t =>
        have hlen : 0 < (v.data.reverse.dropWhile
            (fun c => decide (c = '.' ∨ c = '*'))).length := by
          rw [hd]; simp
        have hnp := List.dropWhile_get_zero_not
          (p := fun c => decide (c = '.' ∨ c = '*')) v.data.reverse hlen
        have hga : (v.data.reverse.dropWhile
            (fun c => decide (c = '.' ∨ c = '*'))).get ⟨0, hlen⟩ = a := by
          have h0 := List.get_of_eq hd ⟨0, hlen⟩
          simpa using h0
        rw [hga] at hnp
        rw [hd] at hc
        simp only [List.head?_cons, Option.some.injEq] at hc
        subst hc
        simpa using hnp

/-- C8 witness: the rstrip equation applied to a direct-mapped operator at a
concrete wildcard version. -/
theorem C8_wildcard_rstrip_witness :
    specClauses "foo" ⟨">=", "1.0.*"⟩ = ["foo >= 1.0"] :=
  (C8_wildcard_rstrip.1 "foo" ">=" "1.0.*" ">=" rfl).trans (by decide)

/-- C9: the operators `==` and `===` translate identically everywhere — both
map to the RPM comparison `=` — in the leaf translator on interpreter-version
variables and on `platform_release`, and in `specifier_to_rpm_version`. -/
theorem C9_double_triple_equals :
    (∀ (abi arch val : String),
        _single_marker_to_rpm_condition "python_full_version" "==" val ⟨abi, arch⟩ =
          _single_marker_to_rpm_condition "python_full_version" "===" val ⟨abi, arch⟩)
    ∧ (∀ (abi arch val : String),
        _single_marker_to_rpm_condition "python_version" "==" val ⟨abi, arch⟩ =
          _single_marker_to_rpm_condition "python_version" "===" val ⟨abi, arch⟩)
    ∧ (∀ (abi arch val : String),
        _single_marker_to_rpm_condition "implementation_version" "==" val ⟨abi, arch⟩ =
          _single_marker_to_rpm_condition "implementation_version" "===" val ⟨abi, arch⟩)
    ∧ (∀ (abi arch val : String),
        _single_marker_to_rpm_condition "platform_release" "==" val ⟨abi, arch⟩ =
          _single_marker_to_rpm_condition "platform_release" "===" val ⟨abi, arch⟩)
    ∧ (∀ (package v : String), specClauses package ⟨"==", v⟩ = specClauses package ⟨"===", v⟩)
    ∧ (∀ (abi arch val : String),
        _single_marker_to_rpm_condition "python_version" "==" val ⟨abi, arch⟩ =
          .ok (let r := "="; s!"{abi} {r} {val}"))
    ∧ _rpm_operator_correspondance "==" = some "="
    ∧ _rpm_operator_correspondance "===" = some "=" :=
  ⟨fun abi arch val => rfl, fun abi arch val => rfl, fun abi arch val => rfl,
   fun abi arch val => rfl, fun package v => rfl, fun abi arch val => rfl, rfl, rfl⟩

/-- C10: `specifier_to_rpm_version` silently drops a specifier whose operator
is none of the recognized ones (no error path exists), and when every
specifier is dropped it returns the bare package name. -/
theorem C10_unrecognized_operator_dropped :
    (∀ (package op v : String), _rpm_operator_correspondance op = none →
        op ≠ "~=" → op ≠ "!=" → specClauses package ⟨op, v⟩ = [])
    ∧ (∀ (package : String) (specs : List Specifier),
        (∀ s ∈ specs, specClauses package s = []) →
        specifier_to_rpm_version package specs = package)
    ∧ specifier_to_rpm_version "foo" [⟨"in", "1.0"⟩, ⟨"@@", "2"⟩] = "foo" := by
  refine ⟨fun package op v h1 h2 h3 => ?_, fun package specs h => ?_, by decide⟩
  · simp only [specClauses, h1]
    rw [if_neg h2, if_neg h3]
  · have hnil : specs.flatMap (specClauses package) = [] :=
      List.flatMap_eq_nil_iff.mpr h
    simp only [specifier_to_rpm_version, hnil]
    rw [if_neg (by simp)]

/-- C10 witness: the `in` operator — valid in markers but not in specifiers —
is dropped without error and an all-dropped list yields the bare name. -/
theorem C10_unrecognized_operator_dropped_witness :
    specClauses "foo" ⟨"in", "1.0"⟩ = []
    ∧ specifier_to_rpm_version "foo" [⟨"in", "1.0"⟩] = "foo" :=
  ⟨C10_unrecognized_operator_dropped.1 "foo" "in" "1.0" rfl (by decide) (by decide),
   C10_unrecognized_operator_dropped.2.1 "foo" [⟨"in", "1.0"⟩]
     (by intro s hs; rw [List.mem_singleton] at hs; subst hs; decide)⟩
